import Mathlib

/-!
Shallow embedding of `src/cogni_sync_client/client.py` (class
`CogniSyncClient`), a small HTTP client for the CogniSync Knowledge
Graph API.

Modelling conventions:

* HTTP bodies travel as `Option Json`: `some j` stands for a byte string
  that is valid JSON and decodes to the value `j`; `none` stands for a
  body that is not valid JSON.  Hence `requests.post(url, json=data)`
  produces a request whose body is `some data` (the JSON serialization
  of `data`), and `resp.json()` succeeds exactly on `some` bodies.
* The network is an oracle `server : Request → Response`; every client
  method builds a single request and applies the oracle to it exactly
  once, mirroring the single `self.session.<verb>(...)` call in each
  Python method.
* The Python methods assign to no attribute of `self`; the embedding
  makes this frame property explicit by state passing: each method
  returns its result together with the resulting client state.
* `requests.Response.raise_for_status` raises `HTTPError` exactly for
  status codes `400 ≤ s < 600`; the exception carries the response
  (status code and body).  `resp.json()` on an invalid-JSON body raises
  a JSON decoding error, which the client code never catches.
* The headers modelled are the ones `__init__` installs on the session
  via `session.headers.update`; transport-level defaults added by the
  `requests` library itself are outside the repository code.
-/

namespace CogniSync

/-- JSON values, passed through the client as untyped structured data
(numbers restricted to integers; no claim depends on numeric shape). -/
inductive Json where
  | null : Json
  | bool : Bool → Json
  | num : Int → Json
  | str : String → Json
  | arr : List Json → Json
  | obj : List (String × Json) → Json

/-- HTTP verbs used by the client. -/
inductive Method where
  | GET : Method
  | POST : Method
  | PUT : Method
  | DELETE : Method

/-- An HTTP request as assembled by the `requests` session from the
session state and the call arguments: verb, URL, headers, query
parameters, and optional JSON body. -/
structure Request where
  method : Method
  url : String
  headers : List (String × String)
  params : List (String × String)
  body : Option Json

/-- An HTTP response: status code plus body (`none` means the body is
not valid JSON). -/
structure Response where
  status : Nat
  body : Option Json

/-- Errors a call can signal: `requests.HTTPError` raised by
`raise_for_status` (carrying the response status and body), or the JSON
decoding error raised by `resp.json()` on an invalid body. -/
inductive CallError where
  | httpError : Nat → Option Json → CallError
  | jsonDecodeError : Nat → CallError

/-- Python `str.rstrip` with the slash character: remove every trailing
slash from the string. -/
def rstripSlash (s : String) : String :=
  String.mk ((s.data.reverse.dropWhile (fun c => c == '/')).reverse)

/-- Client state set up by `CogniSyncClient.__init__`: the stored base
URL (trailing slashes stripped), the stored API key, and the headers
installed on the session by `session.headers.update`. -/
structure CogniSyncClient where
  base_url : String
  api_key : String
  session_headers : List (String × String)

/-- Constructor `CogniSyncClient(base_url, api_key)` from the source:
strips trailing slashes from `base_url`, stores `api_key`, and installs
the three fixed headers on the session. -/
def CogniSyncClient.init (base_url api_key : String) : CogniSyncClient :=
  { base_url := rstripSlash base_url
    api_key := api_key
    session_headers :=
      [("Authorization", "Bearer " ++ api_key),
       ("x-api-key", api_key),
       ("Content-Type", "application/json")] }

/-- The `requests` library `Response.raise_for_status`: raises
`HTTPError` exactly when `400 ≤ status < 600`, the exception carrying
the response status and body. -/
def Response.raise_for_status (r : Response) : Except CallError Unit :=
  if 400 ≤ r.status ∧ r.status < 600 then
    Except.error (CallError.httpError r.status r.body)
  else
    Except.ok ()

/-- The `resp.json()` call: returns the decoded body, or raises a JSON
decoding error when the body is not valid JSON. -/
def Response.json (r : Response) : Except CallError Json :=
  match r.body with
  | some j => Except.ok j
  | none => Except.error (CallError.jsonDecodeError r.status)

/-- Shared tail of every client method in the source:
`resp.raise_for_status()` followed by `return resp.json()`.  Neither
exception is caught by the client. -/
def handleResponse (r : Response) : Except CallError Json :=
  match r.raise_for_status with
  | Except.error e => Except.error e
  | Except.ok _ => r.json

/-- Request built by `health`: GET on `base_url + "/api/v1/health"` with
the session headers, no query parameters, no body. -/
def CogniSyncClient.healthRequest (c : CogniSyncClient) : Request :=
  { method := Method.GET
    url := c.base_url ++ "/api/v1/health"
    headers := c.session_headers
    params := []
    body := none }

/-- Method `health` of the source: one GET via the session, then
`raise_for_status` and `resp.json()`.  Returns the result paired with
the client state after the call. -/
def CogniSyncClient.health (c : CogniSyncClient) (server : Request → Response) :
    Except CallError Json × CogniSyncClient :=
  (handleResponse (server c.healthRequest), c)

/-- Request built by `get_entity`: GET on the f-string
`base_url + "/api/v1/entities/" + entity_id` (plain concatenation). -/
def CogniSyncClient.getEntityRequest (c : CogniSyncClient) (entity_id : String) : Request :=
  { method := Method.GET
    url := c.base_url ++ "/api/v1/entities/" ++ entity_id
    headers := c.session_headers
    params := []
    body := none }

/-- Method `get_entity` of the source. -/
def CogniSyncClient.get_entity (c : CogniSyncClient) (entity_id : String)
    (server : Request → Response) : Except CallError Json × CogniSyncClient :=
  (handleResponse (server (c.getEntityRequest entity_id)), c)

/-- Request built by `list_entities`: GET on
`base_url + "/api/v1/entities"`, forwarding the optional query-parameter
mapping (`None` forwards nothing). -/
def CogniSyncClient.listEntitiesRequest (c : CogniSyncClient)
    (params : Option (List (String × String))) : Request :=
  { method := Method.GET
    url := c.base_url ++ "/api/v1/entities"
    headers := c.session_headers
    params := params.getD []
    body := none }

/-- Method `list_entities` of the source. -/
def CogniSyncClient.list_entities (c : CogniSyncClient)
    (params : Option (List (String × String)))
    (server : Request → Response) : Except CallError Json × CogniSyncClient :=
  (handleResponse (server (c.listEntitiesRequest params)), c)

/-- Request built by `create_entity`: POST on
`base_url + "/api/v1/entities"` with `json=data`, i.e. the body is the
JSON serialization of `data`. -/
def CogniSyncClient.createEntityRequest (c : CogniSyncClient) (data : Json) : Request :=
  { method := Method.POST
    url := c.base_url ++ "/api/v1/entities"
    headers := c.session_headers
    params := []
    body := some data }

/-- Method `create_entity` of the source. -/
def CogniSyncClient.create_entity (c : CogniSyncClient) (data : Json)
    (server : Request → Response) : Except CallError Json × CogniSyncClient :=
  (handleResponse (server (c.createEntityRequest data)), c)

/-- Request built by `update_entity`: PUT on the f-string
`base_url + "/api/v1/entities/" + entity_id` with `json=data`. -/
def CogniSyncClient.updateEntityRequest (c : CogniSyncClient) (entity_id : String)
    (data : Json) : Request :=
  { method := Method.PUT
    url := c.base_url ++ "/api/v1/entities/" ++ entity_id
    headers := c.session_headers
    params := []
    body := some data }

/-- Method `update_entity` of the source. -/
def CogniSyncClient.update_entity (c : CogniSyncClient) (entity_id : String) (data : Json)
    (server : Request → Response) : Except CallError Json × CogniSyncClient :=
  (handleResponse (server (c.updateEntityRequest entity_id data)), c)

/-- Request built by `delete_entity`: DELETE on the f-string
`base_url + "/api/v1/entities/" + entity_id`. -/
def CogniSyncClient.deleteEntityRequest (c : CogniSyncClient) (entity_id : String) : Request :=
  { method := Method.DELETE
    url := c.base_url ++ "/api/v1/entities/" ++ entity_id
    headers := c.session_headers
    params := []
    body := none }

/-- Method `delete_entity` of the source. -/
def CogniSyncClient.delete_entity (c : CogniSyncClient) (entity_id : String)
    (server : Request → Response) : Except CallError Json × CogniSyncClient :=
  (handleResponse (server (c.deleteEntityRequest entity_id)), c)

/-- One of the six client operations, with its arguments. -/
inductive Operation where
  | health : Operation
  | get_entity : String → Operation
  | list_entities : Option (List (String × String)) → Operation
  | create_entity : Json → Operation
  | update_entity : String → Json → Operation
  | delete_entity : String → Operation

/-- The single request an operation issues. -/
def CogniSyncClient.request (c : CogniSyncClient) : Operation → Request
  | Operation.health => c.healthRequest
  | Operation.get_entity i => c.getEntityRequest i
  | Operation.list_entities ps => c.listEntitiesRequest ps
  | Operation.create_entity d => c.createEntityRequest d
  | Operation.update_entity i d => c.updateEntityRequest i d
  | Operation.delete_entity i => c.deleteEntityRequest i

/-- Dispatch an operation to the corresponding client method. -/
def CogniSyncClient.run (c : CogniSyncClient) (server : Request → Response) :
    Operation → Except CallError Json × CogniSyncClient
  | Operation.health => c.health server
  | Operation.get_entity i => c.get_entity i server
  | Operation.list_entities ps => c.list_entities ps server
  | Operation.create_entity d => c.create_entity d server
  | Operation.update_entity i d => c.update_entity i d server
  | Operation.delete_entity i => c.delete_entity i server

/-- Every operation is the shared request-response-handle pipeline
applied to its single request. -/
theorem CogniSyncClient.run_eq (c : CogniSyncClient) (server : Request → Response)
    (op : Operation) :
    c.run server op = (handleResponse (server (c.request op)), c) := by
  cases op <;> rfl

/-- Helper: the head of `dropWhile` never satisfies the dropped
predicate, specialised to the slash character. -/
theorem head_dropWhile_slash_ne (l : List Char) :
    (l.dropWhile (fun c => c == '/')).head? ≠ some '/' := by
  induction l with
  | nil => simp
  | cons a t ih =>
    by_cases h : (a == '/') = true
    · simpa [List.dropWhile_cons, h] using ih
    · simp only [List.dropWhile_cons, if_neg h, List.head?_cons]
      intro hc
      apply h
      simpa using Option.some.inj hc

/-- Helper: `dropWhile` is idempotent. -/
theorem dropWhile_self_idem (p : Char → Bool) (l : List Char) :
    (l.dropWhile p).dropWhile p = l.dropWhile p := by
  induction l with
  | nil => rfl
  | cons a t ih =>
    by_cases h : p a = true
    · simp [List.dropWhile_cons, h, ih]
    · simp [List.dropWhile_cons, h]

/-- C2: for every constructed client and every request issued by any of
the six operations, the request carries exactly the three fixed headers
Authorization (Bearer form), x-api-key, and Content-Type, with both
authentication headers derived from the credential supplied at
construction. -/
theorem C2_fixed_headers (base_url api_key : String) (op : Operation) :
    ((CogniSyncClient.init base_url api_key).request op).headers =
      [("Authorization", "Bearer " ++ api_key),
       ("x-api-key", api_key),
       ("Content-Type", "application/json")] := by
  cases op <;> rfl

/-- C3: for every input string, the base URL stored at construction never
ends in a slash, and slash-stripping normalization is idempotent. -/
theorem C3_base_url_normalized (base_url api_key x : String) :
    ((CogniSyncClient.init base_url api_key).base_url).data.getLast? ≠ some '/' ∧
    rstripSlash (rstripSlash x) = rstripSlash x := by
  constructor
  · show ((rstripSlash base_url).data.getLast? ≠ some '/')
    unfold rstripSlash
    rw [show (String.mk ((base_url.data.reverse.dropWhile
          (fun c => c == '/')).reverse)).data =
        (base_url.data.reverse.dropWhile (fun c => c == '/')).reverse from rfl]
    rw [List.getLast?_reverse]
    exact head_dropWhile_slash_ne _
  · unfold rstripSlash
    simp [dropWhile_self_idem]

/-- C4: each operation issues exactly one request (each method applies
the server oracle to a single built request), with verb and path fixed
by its endpoint mapping under the /api/v1 prefix; in particular
get_entity of the id e1 issues a GET whose path ends in the literal
id e1. -/
theorem C4_endpoint_mapping (base_url api_key i : String) (d : Json)
    (ps : Option (List (String × String))) :
    ((CogniSyncClient.init base_url api_key).request Operation.health).method = Method.GET ∧
    ((CogniSyncClient.init base_url api_key).request Operation.health).url =
      (CogniSyncClient.init base_url api_key).base_url ++ "/api/v1/health" ∧
    ((CogniSyncClient.init base_url api_key).request (Operation.list_entities ps)).method
      = Method.GET ∧
    ((CogniSyncClient.init base_url api_key).request (Operation.list_entities ps)).url =
      (CogniSyncClient.init base_url api_key).base_url ++ "/api/v1/entities" ∧
    ((CogniSyncClient.init base_url api_key).request (Operation.create_entity d)).method
      = Method.POST ∧
    ((CogniSyncClient.init base_url api_key).request (Operation.create_entity d)).url =
      (CogniSyncClient.init base_url api_key).base_url ++ "/api/v1/entities" ∧
    ((CogniSyncClient.init base_url api_key).request (Operation.get_entity i)).method
      = Method.GET ∧
    ((CogniSyncClient.init base_url api_key).request (Operation.get_entity i)).url =
      (CogniSyncClient.init base_url api_key).base_url ++ "/api/v1/entities/" ++ i ∧
    ((CogniSyncClient.init base_url api_key).request (Operation.update_entity i d)).method
      = Method.PUT ∧
    ((CogniSyncClient.init base_url api_key).request (Operation.update_entity i d)).url =
      (CogniSyncClient.init base_url api_key).base_url ++ "/api/v1/entities/" ++ i ∧
    ((CogniSyncClient.init base_url api_key).request (Operation.delete_entity i)).method
      = Method.DELETE ∧
    ((CogniSyncClient.init base_url api_key).request (Operation.delete_entity i)).url =
      (CogniSyncClient.init base_url api_key).base_url ++ "/api/v1/entities/" ++ i ∧
    ((CogniSyncClient.init base_url api_key).request (Operation.get_entity "e1")).url =
      (CogniSyncClient.init base_url api_key).base_url ++ "/api/v1/entities/" ++ "e1" :=
  ⟨rfl, rfl, rfl, rfl, rfl, rfl, rfl, rfl, rfl, rfl, rfl, rfl, rfl⟩

/-- C7: list_entities forwards every key-value pair of its optional
query-parameter mapping as query parameters of the GET request; the
type equals person example forwards exactly that pair, and omitting the
argument (None) sends no query parameters. -/
theorem C7_query_params (c : CogniSyncClient) (ps : List (String × String)) :
    (c.listEntitiesRequest (some ps)).params = ps ∧
    (c.listEntitiesRequest none).params = [] ∧
    (c.listEntitiesRequest (some [("type", "person")])).params = [("type", "person")] :=
  ⟨rfl, rfl, rfl⟩

/-- C8: no operation mutates the client configuration: for every client,
server behaviour and operation, the client state after the call (second
component of run) equals the state before it, in particular the stored
base_url, api_key and session headers are unchanged. -/
theorem C8_no_mutation (c : CogniSyncClient) (server : Request → Response)
    (op : Operation) :
    (c.run server op).2 = c ∧
    (c.run server op).2.base_url = c.base_url ∧
    (c.run server op).2.api_key = c.api_key ∧
    (c.run server op).2.session_headers = c.session_headers := by
  cases op <;> exact ⟨rfl, rfl, rfl, rfl⟩

/-- C10: get_entity, update_entity and delete_entity build the request
URL by plain string concatenation of the stored base URL, the literal
entities path segment, and the entity id, with no percent-encoding; an
id containing slash, question mark or hash characters lands verbatim in
the URL. -/
theorem C10_plain_concatenation (c : CogniSyncClient) (i : String) (d : Json) :
    (c.getEntityRequest i).url = c.base_url ++ "/api/v1/entities/" ++ i ∧
    (c.updateEntityRequest i d).url = c.base_url ++ "/api/v1/entities/" ++ i ∧
    (c.deleteEntityRequest i).url = c.base_url ++ "/api/v1/entities/" ++ i ∧
    (c.getEntityRequest "a/b?q=1#frag").url =
      c.base_url ++ "/api/v1/entities/" ++ "a/b?q=1#frag" :=
  ⟨rfl, rfl, rfl, rfl⟩

/-- C5: create_entity sends exactly the JSON serialization of its
payload as the POST body (body is `some P`, the document decoding to P),
and against a server that echoes the request body back verbatim with any
success (2xx) status it returns a value deep-equal to the payload. -/
theorem C5_create_echo_roundtrip (base_url api_key : String) (P : Json) (s : Nat)
    (hs : 200 ≤ s ∧ s < 300) :
    ((CogniSyncClient.init base_url api_key).createEntityRequest P).body = some P ∧
    ((CogniSyncClient.init base_url api_key).create_entity P
        (fun req => Response.mk s req.body)).1 = Except.ok P := by
  refine ⟨rfl, ?_⟩
  have hne : ¬ (400 ≤ s ∧ s < 600) := by omega
  simp [CogniSyncClient.create_entity, handleResponse, Response.raise_for_status,
        Response.json, CogniSyncClient.createEntityRequest, hne]

/-- Witness for C5 at a concrete payload and status 200. -/
theorem C5_create_echo_roundtrip_witness :
    ((CogniSyncClient.init "http://h" "k").createEntityRequest
        (Json.obj [("name", Json.str "X")])).body = some (Json.obj [("name", Json.str "X")]) ∧
    ((CogniSyncClient.init "http://h" "k").create_entity (Json.obj [("name", Json.str "X")])
        (fun req => Response.mk 200 req.body)).1 =
      Except.ok (Json.obj [("name", Json.str "X")]) :=
  C5_create_echo_roundtrip "http://h" "k" (Json.obj [("name", Json.str "X")]) 200
    (by exact ⟨by norm_num, by norm_num⟩)

/-- C6: when the response status indicates success (2xx), every
operation returns the JSON-decoded response body exactly as the server
produced it, unmodified. -/
theorem C6_success_passthrough (c : CogniSyncClient) (server : Request → Response)
    (op : Operation) (j : Json)
    (hs : 200 ≤ (server (c.request op)).status ∧ (server (c.request op)).status < 300)
    (hb : (server (c.request op)).body = some j) :
    (c.run server op).1 = Except.ok j := by
  have hne : ¬ (400 ≤ (server (c.request op)).status ∧
      (server (c.request op)).status < 600) := by omega
  rw [CogniSyncClient.run_eq]
  simp [handleResponse, Response.raise_for_status, Response.json, hne, hb]

/-- Witness for C6: a 200 response with a concrete JSON body is returned
unchanged by the health operation. -/
theorem C6_success_passthrough_witness :
    ((CogniSyncClient.init "http://h" "k").run
        (fun _ => Response.mk 200 (some (Json.str "ok"))) Operation.health).1 =
      Except.ok (Json.str "ok") :=
  C6_success_passthrough (CogniSyncClient.init "http://h" "k")
    (fun _ => Response.mk 200 (some (Json.str "ok"))) Operation.health (Json.str "ok")
    (by exact ⟨by norm_num, by norm_num⟩) rfl

/-- C9: when the status indicates success (2xx) but the body is not
valid JSON, every operation signals the JSON decoding error rather than
returning a value; the client never catches it. -/
theorem C9_decode_error_propagates (c : CogniSyncClient) (server : Request → Response)
    (op : Operation)
    (hs : 200 ≤ (server (c.request op)).status ∧ (server (c.request op)).status < 300)
    (hb : (server (c.request op)).body = none) :
    (c.run server op).1 =
      Except.error (CallError.jsonDecodeError (server (c.request op)).status) := by
  have hne : ¬ (400 ≤ (server (c.request op)).status ∧
      (server (c.request op)).status < 600) := by omega
  rw [CogniSyncClient.run_eq]
  simp [handleResponse, Response.raise_for_status, Response.json, hne, hb]

/-- Witness for C9: a 200 response whose body is not valid JSON makes
the health operation signal the decoding error. -/
theorem C9_decode_error_propagates_witness :
    ((CogniSyncClient.init "http://h" "k").run
        (fun _ => Response.mk 200 none) Operation.health).1 =
      Except.error (CallError.jsonDecodeError 200) :=
  C9_decode_error_propagates (CogniSyncClient.init "http://h" "k")
    (fun _ => Response.mk 200 none) Operation.health
    (by exact ⟨by norm_num, by norm_num⟩) rfl

/-- C1, counterexample: the claim says every non-2xx status signals an
error and never returns a value, but a 304 response (non-2xx) with a
JSON body makes health return a success value, because
raise_for_status only raises for statuses in [400, 600). -/
theorem C1_counterexample :
    (((CogniSyncClient.init "http://h" "k").health
        (fun _ => Response.mk 304 (some Json.null))).1 = Except.ok Json.null) ∧
    ¬ (200 ≤ 304 ∧ 304 < 300) :=
  ⟨rfl, by decide⟩

/-- C1, amended: for every operation, a response whose status lies in
[400, 600) (all 4xx/5xx statuses) signals an error exposing the status
code and the response body and never returns a value; non-2xx statuses
outside that range (1xx/3xx) are not treated as errors by the status
check. -/
theorem C1_http_failure_signalled (c : CogniSyncClient) (server : Request → Response)
    (op : Operation)
    (hs : 400 ≤ (server (c.request op)).status ∧ (server (c.request op)).status < 600) :
    (c.run server op).1 =
      Except.error (CallError.httpError (server (c.request op)).status
        (server (c.request op)).body) := by
  rw [CogniSyncClient.run_eq]
  simp [handleResponse, Response.raise_for_status, if_pos hs]

/-- Witness for the amended C1: a 404 with a JSON body is surfaced as an
HTTP error carrying status and body. -/
theorem C1_http_failure_signalled_witness :
    ((CogniSyncClient.init "http://h" "k").run
        (fun _ => Response.mk 404 (some (Json.str "missing"))) Operation.health).1 =
      Except.error (CallError.httpError 404 (some (Json.str "missing"))) :=
  C1_http_failure_signalled (CogniSyncClient.init "http://h" "k")
    (fun _ => Response.mk 404 (some (Json.str "missing"))) Operation.health
    (by exact ⟨by norm_num, by norm_num⟩)

end CogniSync
